import Mathlib

/-!
Verification model of the EMI-Voicebot repository (src/ap3.py; ap2.py shares
the same core functions).  The program stores customers, loans and an
append-only call log in SQLite and exposes lifecycle operations
(`mark_paid`, `reschedule_loan`), read-and-notify operations (`place_call`,
`send_payment_link`), overdue / pre-due selection queries, and a
language-keyed message template table with an English fallback
(`get_msg`).  Dates are ISO `YYYY-MM-DD` strings in the store; comparison
of such strings is chronological, so we model a date as its civil
day-number (days since 1970-01-01) together with conversions to and from
the `(year, month, day)` form that the Python `datetime` library uses for
`timedelta` arithmetic, `isoformat` and `strftime`.

Twilio credentials are absent by default (`USE_TWILIO = false`), so the
model follows the mock branch of each notification function, which is the
only branch with no external service call.
-/

namespace EMIVoicebot

/-! ### Civil date arithmetic (models Python `datetime.date` + `timedelta`) -/

/-- Day number of a civil date, days since 1970-01-01 (the standard
days-from-civil algorithm; matches Python `date.toordinal` up to the
constant epoch offset, hence matches `date + timedelta(days=n)` being
day-number addition). -/
def days_from_civil (y m d : Int) : Int :=
  let y2 : Int := if m ≤ 2 then y - 1 else y
  let era : Int := y2.ediv 400
  let yoe : Int := y2 - era * 400
  let mp : Int := if m ≤ 2 then m + 9 else m - 3
  let doy : Int := (153 * mp + 2).ediv 5 + d - 1
  let doe : Int := yoe * 365 + yoe.ediv 4 - yoe.ediv 100 + doy
  era * 146097 + doe - 719468

/-- Inverse of `days_from_civil`: day number back to `(year, month, day)`. -/
def civil_from_days (z0 : Int) : Int × Int × Int :=
  let z : Int := z0 + 719468
  let era : Int := z.ediv 146097
  let doe : Int := z - era * 146097
  let yoe : Int := (doe - doe.ediv 1460 + doe.ediv 36524 - doe.ediv 146096).ediv 365
  let y : Int := yoe + era * 400
  let doy : Int := doe - (365 * yoe + yoe.ediv 4 - yoe.ediv 100)
  let mp : Int := (5 * doy + 2).ediv 153
  let d : Int := doy - (153 * mp + 2).ediv 5 + 1
  let m : Int := if mp < 10 then mp + 3 else mp - 9
  (if m ≤ 2 then y + 1 else y, m, d)

/-- Short constructor for a concrete date, as a day number. -/
def mkDate (y m d : Int) : Int := days_from_civil y m d

/-- Zero-pad a nonnegative integer to two digits (for ISO dates and `%d`). -/
def pad2 (n : Int) : String :=
  if n < 10 then "0" ++ toString n else toString n

/-- Zero-pad a nonnegative integer to four digits (ISO year). -/
def pad4 (n : Int) : String :=
  if n < 10 then "000" ++ toString n
  else if n < 100 then "00" ++ toString n
  else if n < 1000 then "0" ++ toString n
  else toString n

/-- Models `date.isoformat()`: `YYYY-MM-DD`. -/
def isoDate (z : Int) : String :=
  let c := civil_from_days z
  pad4 c.1 ++ "-" ++ pad2 c.2.1 ++ "-" ++ pad2 c.2.2

/-- English month name, for `strftime` with the `%B` directive. -/
def monthName (m : Int) : String :=
  if m = 1 then "January" else if m = 2 then "February"
  else if m = 3 then "March" else if m = 4 then "April"
  else if m = 5 then "May" else if m = 6 then "June"
  else if m = 7 then "July" else if m = 8 then "August"
  else if m = 9 then "September" else if m = 10 then "October"
  else if m = 11 then "November" else "December"

/-- Models `datetime.strftime` with format `%B %d, %Y`, as used by
`place_call` to format the due date for display. -/
def formatLongDate (z : Int) : String :=
  let c := civil_from_days z
  monthName c.2.1 ++ " " ++ pad2 c.2.2 ++ ", " ++ pad4 c.1

/-! ### Data model (tables `customers`, `loans`, `call_logs`) -/

/-- Loan status column; the schema default is `due` and the code writes
only `paid` (in `mark_paid`) and `rescheduled` (in `reschedule_loan`). -/
inductive Status where
  | due
  | paid
  | rescheduled
deriving DecidableEq, Repr

/-- A row of the `customers` table (minus the id, which keys the row). -/
structure Customer where
  name : String
  phone : String
  language : String
deriving DecidableEq, Repr

/-- A row of the `loans` table (minus the id, which keys the row).
`due_date` is the day number of the stored ISO date; SQL `<=` on ISO date
strings is chronological, i.e. `≤` on day numbers. -/
structure Loan where
  customer_id : Nat
  emi_amount : Nat
  due_date : Int
  status : Status
deriving DecidableEq, Repr

/-- A row of the append-only `call_logs` table (minus id and timestamp). -/
structure LogEntry where
  loan_id : Nat
  event : String
  detail : String
deriving DecidableEq, Repr

/-- The database state: each table as a list of rows in rowid order
(`INTEGER PRIMARY KEY AUTOINCREMENT` assigns strictly increasing ids, and
an unordered SQLite scan returns rows in rowid order). -/
structure DB where
  customers : List (Nat × Customer)
  loans : List (Nat × Loan)
  call_logs : List LogEntry
deriving DecidableEq, Repr

/-- Query `SELECT ... WHERE id = ?` on a keyed table: first row with that id. -/
def lookupId {α : Type} (xs : List (Nat × α)) (id : Nat) : Option α :=
  match xs with
  | [] => none
  | p :: rest => if p.1 = id then some p.2 else lookupId rest id

/-- Update `UPDATE loans SET ... WHERE id = ?`: rewrite every row with that id. -/
def setLoan (xs : List (Nat × Loan)) (id : Nat) (f : Loan → Loan) :
    List (Nat × Loan) :=
  xs.map (fun p => if p.1 = id then (p.1, f p.2) else p)

def DB.findLoan (db : DB) (id : Nat) : Option Loan := lookupId db.loans id

def DB.findCustomer (db : DB) (id : Nat) : Option Customer :=
  lookupId db.customers id

/-- The `JOIN customers c ON l.customer_id = c.id ... WHERE l.id = ?` used
by `place_call` and `send_payment_link`: both the loan row and its
customer row must exist. -/
def DB.joinLoan (db : DB) (id : Nat) : Option (Loan × Customer) :=
  match db.findLoan id with
  | none => none
  | some l =>
    match db.findCustomer l.customer_id with
    | none => none
    | some c => some (l, c)

/-- Insert `INSERT INTO call_logs (loan_id, event, detail) VALUES (?, ?, ?)`. -/
def DB.appendLog (db : DB) (id : Nat) (event detail : String) : DB :=
  { db with call_logs := db.call_logs ++ [⟨id, event, detail⟩] }

/-! ### Message templates (`LANG_MSGS` and `get_msg`) -/

/-- The four template keys every language entry of `LANG_MSGS` carries.
A template is the Python format string as a function of the three
placeholder values (name, amount, due_date). -/
structure MsgSet where
  reminder : String → String → String → String
  pre_due_reminder : String → String → String → String
  link_sent : String → String → String → String
  rescheduled : String → String → String → String

/-- The template keys the program uses (`place_call` passes `"reminder"`
by default and `"pre_due_reminder"` for the pre-due bulk loop). -/
inductive MsgKey where
  | reminder
  | pre_due_reminder
  | link_sent
  | rescheduled
deriving DecidableEq, Repr

def MsgSet.render (m : MsgSet) (key : MsgKey) (n a d : String) : String :=
  match key with
  | .reminder => m.reminder n a d
  | .pre_due_reminder => m.pre_due_reminder n a d
  | .link_sent => m.link_sent n a d
  | .rescheduled => m.rescheduled n a d

/-- The `"en"` entry of `LANG_MSGS` in src/ap3.py; each template is
the Python format string with placeholders turned into arguments
(n = name, a = amount, d = due_date). -/
def msgs_en : MsgSet where
  reminder := fun n a _d => "Hello " ++ n ++ ". This is a reminder from TVS Credit. Your EMI of Rs " ++ a ++ " is due today. Press 1 to pay now, or press 2 to request a reschedule."
  pre_due_reminder := fun n a d => "Hello " ++ n ++ ". A friendly reminder from TVS Credit. Your EMI of Rs " ++ a ++ " is due on " ++ d ++ ". Thank you."
  link_sent := fun _n _a _d => "We have sent a payment link to your phone. Thank you."
  rescheduled := fun _n _a _d => "Your request has been noted. An agent will call you back shortly to confirm a new date. Thank you."

/-- The `"hi"` entry of `LANG_MSGS` in src/ap3.py; each template is
the Python format string with placeholders turned into arguments
(n = name, a = amount, d = due_date). -/
def msgs_hi : MsgSet where
  reminder := fun n a _d => "नमस्ते " ++ n ++ ". TVS क्रेडिट से रिमाइंडर। आपकी EMI " ++ a ++ " रुपये आज देय है। भुगतान के लिए 1 दबाएँ, पुनर्निर्धारण के लिए 2 दबाएँ।"
  pre_due_reminder := fun n a d => "नमस्ते " ++ n ++ ". TVS क्रेडिट से एक सूचना। आपकी EMI " ++ a ++ " रुपये " ++ d ++ " को देय है। धन्यवाद।"
  link_sent := fun _n _a _d => "हमने आपके नंबर पर भुगतान लिंक भेज दिया है। धन्यवाद।"
  rescheduled := fun _n _a _d => "आपका अनुरोध नोट कर लिया गया है। एक एजेंट आपको एक नई तारीख की पुष्टि करने के लिए जल्द ही कॉल करेगा। धन्यवाद।"

/-- The `"bn"` entry of `LANG_MSGS` in src/ap3.py; each template is
the Python format string with placeholders turned into arguments
(n = name, a = amount, d = due_date). -/
def msgs_bn : MsgSet where
  reminder := fun n a _d => "নমস্কার " ++ n ++ ". TVS Credit থেকে একটি রিমাইন্ডার। আপনার EMI " ++ a ++ " টাকা আজ বাকি আছে। পে করতে 1 চেপে দিন, পুনঃনির্ধারণ করতে 2 চেপে দিন।"
  pre_due_reminder := fun n a d => "নমস্কার " ++ n ++ ". TVS Credit থেকে একটি বন্ধুত্বপূর্ণ রিমাইন্ডার। আপনার EMI " ++ a ++ " টাকা " ++ d ++ " তারিখে বাকি আছে। ধন্যবাদ।"
  link_sent := fun _n _a _d => "পেমেন্ট লিঙ্ক আপনার ফোনে পাঠানো হয়েছে। ধন্যবাদ।"
  rescheduled := fun _n _a _d => "আপনার অনুরোধ নোট করা হয়েছে। একজন এজেন্ট একটি নতুন তারিখ নিশ্চিত করতে আপনাকে শীঘ্রই আবার কল করবে। ধন্যবাদ।"

/-- The `"ta"` entry of `LANG_MSGS` in src/ap3.py; each template is
the Python format string with placeholders turned into arguments
(n = name, a = amount, d = due_date). -/
def msgs_ta : MsgSet where
  reminder := fun n a _d => "வணக்கம் " ++ n ++ ". TVS Credit நினைவூட்டல். உங்கள் EMI " ++ a ++ " ரூபாய் இன்று செலுத்த வேண்டும். செலுத்த 1 ஐ அழுத்தவும், மாற்றம் செய்ய 2 ஐ அழுத்தவும்."
  pre_due_reminder := fun n a d => "வணக்கம் " ++ n ++ ". TVS Credit நினைவூட்டல். உங்கள் EMI " ++ a ++ " ரூபாய் " ++ d ++ " அன்று செலுத்த வேண்டும். நன்றி."
  link_sent := fun _n _a _d => "உங்கள் எண்ணுக்கான கட்டண இணைப்பு அனுப்பப்பட்டுள்ளது."
  rescheduled := fun _n _a _d => "உங்கள் கோரிக்கை ஏற்கப்பட்டது. ஒரு முகவர் புதிய தேதியை உறுதிப்படுத்த உங்களை மீண்டும் அழைப்பார். நன்றி."

/-- The `"te"` entry of `LANG_MSGS` in src/ap3.py; each template is
the Python format string with placeholders turned into arguments
(n = name, a = amount, d = due_date). -/
def msgs_te : MsgSet where
  reminder := fun n a _d => "నమస్కారం " ++ n ++ ". TVS క్రెడిట్ నుండి రిమైండర్. మీ EMI " ++ a ++ " రూపాయలు ఈ రోజు చెల్లించాల్సి ఉంది. ఇప్పుడు చెల్లించడానికి 1 నొక్కండి లేదా రీషెడ్యూల్ కోసం 2 నొక్కండి."
  pre_due_reminder := fun n a d => "నమస్కారం " ++ n ++ ". TVS క్రెడిట్ నుండి ఒక స్నేహపూర్వక రిమైండర్. మీ EMI " ++ a ++ " రూపాయలు " ++ d ++ " న చెల్లించాల్సి ఉంది. ధన్యవాదాలు."
  link_sent := fun _n _a _d => "మేము మీ ఫోన్‌కు చెల్లింపు లింక్‌ను పంపాము. ధన్యవాదాలు."
  rescheduled := fun _n _a _d => "మీ అభ్యర్థన నమోదు చేయబడింది. ఒక ఏజెంట్ త్వరలో కొత్త తేదీని నిర్ధారించడానికి మీకు తిరిగి కాల్ చేస్తారు. ధన్యవాదాలు."

/-- The `"mr"` entry of `LANG_MSGS` in src/ap3.py; each template is
the Python format string with placeholders turned into arguments
(n = name, a = amount, d = due_date). -/
def msgs_mr : MsgSet where
  reminder := fun n a _d => "नमस्कार " ++ n ++ ". TVS क्रेडिट कडून रिमाइंडर. तुमचा " ++ a ++ " रुपयांचा EMI आज देय आहे. आता पेमेंट करण्यासाठी 1 दाबा किंवा रीशेड्यूल करण्याची विनंती करण्यासाठी 2 दाबा."
  pre_due_reminder := fun n a d => "नमस्कार " ++ n ++ ". TVS क्रेडिट कडून एक मैत्रीपूर्ण रिमाइंडर. तुमचा " ++ a ++ " रुपयांचा EMI " ++ d ++ " रोजी देय आहे. धन्यवाद."
  link_sent := fun _n _a _d => "आम्ही तुमच्या फोनवर पेमेंट लिंक पाठवली आहे. धन्यवाद."
  rescheduled := fun _n _a _d => "तुमच्या विनंतीची नोंद घेतली आहे. एक एजंट लवकरच नवीन तारखेची पुष्टी करण्यासाठी तुम्हाला परत कॉल करेल. धन्यवाद."

/-- The `"gu"` entry of `LANG_MSGS` in src/ap3.py; each template is
the Python format string with placeholders turned into arguments
(n = name, a = amount, d = due_date). -/
def msgs_gu : MsgSet where
  reminder := fun n a _d => "નમસ્તે " ++ n ++ ". TVS ક્રેડિટ તરફથી રિમાઇન્ડર. તમારી EMI " ++ a ++ " રૂપિયા આજે ચૂકવવાપાત્ર છે. હમણાં ચૂકવવા માટે 1 દબાવો, અથવા ફરીથી શેડ્યૂલની વિનંતી કરવા માટે 2 દબાવો."
  pre_due_reminder := fun n a d => "નમસ્તે " ++ n ++ ". TVS ક્રેડિટ તરફથી એક અનૌપચારિક રિમાઇન્ડર. તમારી EMI " ++ a ++ " રૂપિયા " ++ d ++ " ના રોજ ચૂકવવાપાત્ર છે. આભાર."
  link_sent := fun _n _a _d => "અમે તમારા ફોન પર ચુકવણી લિંક મોકલી છે. આભાર."
  rescheduled := fun _n _a _d => "તમારી વિનંતીની નોંધ લેવામાં આવી છે. એક એજન્ટ ટૂંક સમયમાં નવી તારીખની પુષ્ટિ કરવા માટે તમને પાછા કૉલ કરશે. આભાર."

/-- The `"kn"` entry of `LANG_MSGS` in src/ap3.py; each template is
the Python format string with placeholders turned into arguments
(n = name, a = amount, d = due_date). -/
def msgs_kn : MsgSet where
  reminder := fun n a _d => "ನಮಸ್ಕಾರ " ++ n ++ ". TVS ಕ್ರೆಡಿಟ್‌ನಿಂದ ಜ್ಞಾಪನೆ. ನಿಮ್ಮ EMI " ++ a ++ " ರೂಪಾಯಿಗಳು ಇಂದು ಪಾವತಿಸಬೇಕಾಗಿದೆ. ಈಗ ಪಾವತಿಸಲು 1 ಒತ್ತಿರಿ, ಅಥವಾ ಮರುಹೊಂದಿಸಲು 2 ಒತ್ತಿರಿ."
  pre_due_reminder := fun n a d => "ನಮಸ್ಕಾರ " ++ n ++ ". TVS ಕ್ರೆಡಿಟ್‌ನಿಂದ ಸೌಹಾರ್ದಯುತ ಜ್ಞಾಪನೆ. ನಿಮ್ಮ EMI " ++ a ++ " ರೂಪಾಯಿಗಳು " ++ d ++ " ರಂದು ಪಾವತಿಸಬೇಕಾಗಿದೆ. ಧನ್ಯವಾದಗಳು."
  link_sent := fun _n _a _d => "ನಾವು ನಿಮ್ಮ ಫೋನ್‌ಗೆ ಪಾವತಿ ಲಿಂಕ್ ಕಳುಹಿಸಿದ್ದೇವೆ. ಧನ್ಯವಾದಗಳು."
  rescheduled := fun _n _a _d => "ನಿಮ್ಮ ವಿನಂತಿಯನ್ನು નોંધಲಾಗಿದೆ. ಏಜೆಂಟ್ ಶೀಘ್ರದಲ್ಲೇ ಹೊಸ ದಿನಾಂಕವನ್ನು ಖಚಿತಪಡಿಸಲು ನಿಮಗೆ ಮರಳಿ ಕರೆ ಮಾಡುತ್ತಾರೆ. ಧನ್ಯವಾದಗಳು."

/-- The `"ml"` entry of `LANG_MSGS` in src/ap3.py; each template is
the Python format string with placeholders turned into arguments
(n = name, a = amount, d = due_date). -/
def msgs_ml : MsgSet where
  reminder := fun n a _d => "നമസ്കാരം " ++ n ++ ". TVS ക്രെഡിറ്റിൽ നിന്നുള്ള ഒരു ഓർമ്മപ്പെടുത്തൽ. നിങ്ങളുടെ " ++ a ++ " രൂപയുടെ EMI ഇന്ന് അടയ്‌ക്കേണ്ടതാണ്. ഇപ്പോൾ പണമടയ്ക്കാൻ 1 അമർത്തുക, അല്ലെങ്കിൽ പുനഃക്രമീകരിക്കാൻ 2 അമർത്തുക."
  pre_due_reminder := fun n a d => "നമസ്കാരം " ++ n ++ ". TVS ക്രെഡിറ്റിൽ നിന്നുള്ള ഒരു സൗഹൃദപരമായ ഓർമ്മപ്പെടുത്തൽ. നിങ്ങളുടെ " ++ a ++ " രൂപയുടെ EMI " ++ d ++ " തീയതിയിൽ അടയ്‌ക്കേണ്ടതാണ്. നന്ദി."
  link_sent := fun _n _a _d => "ഞങ്ങൾ നിങ്ങളുടെ ഫോണിലേക്ക് ഒരു പേയ്‌മെന്റ് ലിങ്ക് അയച്ചിട്ടുണ്ട്. നന്ദി."
  rescheduled := fun _n _a _d => "നിങ്ങളുടെ അഭ്യർത്ഥന രേഖപ്പെടുത്തിയിട്ടുണ്ട്. ഒരു പുതിയ തീയതി സ്ഥിരീകരിക്കുന്നതിന് ഒരു ഏജന്റ് നിങ്ങളെ ഉടൻ തിരികെ വിളിക്കുന്നതാണ്. നന്ദി."

/-- The `"pa"` entry of `LANG_MSGS` in src/ap3.py; each template is
the Python format string with placeholders turned into arguments
(n = name, a = amount, d = due_date). -/
def msgs_pa : MsgSet where
  reminder := fun n a _d => "ਸਤ ਸ੍ਰੀ ਅਕਾਲ " ++ n ++ ". TVS ਕ੍ਰੈਡਿਟ ਵੱਲੋਂ ਇੱਕ ਯਾਦ-ਦਹਾਨੀ। ਤੁਹਾਡੀ " ++ a ++ " ਰੁਪਏ ਦੀ EMI ਅੱਜ ਬਕਾਇਆ ਹੈ। ਹੁਣੇ ਭੁਗਤਾਨ ਕਰਨ ਲਈ 1 ਦਬਾਓ, ਜਾਂ ਮੁੜ-ਨਿਰਧਾਰਤ ਕਰਨ ਲਈ 2 ਦਬਾਓ।"
  pre_due_reminder := fun n a d => "ਸਤ ਸ੍ਰੀ ਅਕਾਲ " ++ n ++ ". TVS ਕ੍ਰੈਡਿਟ ਵੱਲੋਂ ਇੱਕ ਦੋਸਤਾਨਾ ਯਾਦ-ਦਹਾਨੀ। ਤੁਹਾਡੀ " ++ a ++ " ਰੁਪਏ ਦੀ EMI " ++ d ++ " ਨੂੰ ਬਕਾਇਆ ਹੈ। ਧੰਨਵਾਦ।"
  link_sent := fun _n _a _d => "ਅਸੀਂ ਤੁਹਾਡੇ ਫ਼ੋਨ \x27ਤੇ ਭੁਗਤਾਨ ਲਿੰਕ ਭੇਜ ਦਿੱਤਾ ਹੈ। ਧੰਨਵਾਦ।"
  rescheduled := fun _n _a _d => "ਤੁਹਾਡੀ ਬੇਨਤੀ ਨੋਟ ਕਰ ਲਈ ਗਈ ਹੈ। ਇੱਕ ਏਜੰਟ ਜਲਦੀ ਹੀ ਨਵੀਂ ਤਾਰੀਖ ਦੀ ਪੁਸ਼ਟੀ ਕਰਨ ਲਈ ਤੁਹਾਨੂੰ ਵਾਪਸ ਕਾਲ ਕਰੇਗਾ। ਧੰਨਵਾਦ।"

/-- The `"or"` entry of `LANG_MSGS` in src/ap3.py; each template is
the Python format string with placeholders turned into arguments
(n = name, a = amount, d = due_date). -/
def msgs_or : MsgSet where
  reminder := fun n a _d => "ନମସ୍କାର " ++ n ++ "। TVS କ୍ରେଡିଟ୍‌ରୁ ଏକ ସ୍ମାରକ। ଆପଣଙ୍କର " ++ a ++ " ଟଙ୍କାର EMI ଆଜି ଦେୟ ଅଟେ। ବର୍ତ୍ତମାନ ପେମେଣ୍ଟ କରିବା ପାଇଁ 1 ଦବାନ୍ତୁ, କିମ୍ବା ପୁନଃ-ନିର୍ଧାରଣ ପାଇଁ 2 ଦବାନ୍ତୁ।"
  pre_due_reminder := fun n a d => "ନମସ୍କାର " ++ n ++ "। TVS କ୍ରେଡିଟ୍‌ରୁ ଏକ ବନ୍ଧୁତ୍ୱପୂର୍ଣ୍ଣ ସ୍ମାରକ। ଆପଣଙ୍କର " ++ a ++ " ଟଙ୍କାର EMI " ++ d ++ " ରେ ଦେୟ ଅଟେ। ଧନ୍ୟବାଦ।"
  link_sent := fun _n _a _d => "ଆମେ ଆପଣଙ୍କ ଫୋନକୁ ଏକ ପେମେଣ୍ଟ ଲିଙ୍କ୍ ପଠାଇଛୁ। ଧନ୍ୟବାଦ।"
  rescheduled := fun _n _a _d => "ଆପଣଙ୍କ ଅନୁରୋଧକୁ ଟିପ୍ପଣୀ କରାଯାଇଛି। ଜଣେ ଏଜେଣ୍ଟ ଶୀଘ୍ର ଏକ ନୂତନ ତାରିଖ ନିଶ୍ଚିତ କରିବାକୁ ଆପଣଙ୍କୁ ପୁନର୍ବାର କଲ୍ କରିବେ। ଧନ୍ୟବାଦ।"

/-- The `"ur"` entry of `LANG_MSGS` in src/ap3.py; each template is
the Python format string with placeholders turned into arguments
(n = name, a = amount, d = due_date). -/
def msgs_ur : MsgSet where
  reminder := fun n a _d => "ہیلو " ++ n ++ "۔ TVS کریڈٹ کی طرف سے ایک یاد دہانی۔ آپ کی " ++ a ++ " روپے کی EMI آج واجب الادا ہے۔ ابھی ادائیگی کے لیے 1 دبائیں، یا دوبارہ شیڈول کرنے کی درخواست کے لیے 2 دبائیں۔"
  pre_due_reminder := fun n a d => "ہیلو " ++ n ++ "۔ TVS کریڈٹ کی طرف سے ایک دوستانہ یاد دہانی۔ آپ کی " ++ a ++ " روپے کی EMI " ++ d ++ " کو واجب الادا ہے۔ شکریہ۔"
  link_sent := fun _n _a _d => "ہم نے آپ کے فون پر ادائیگی کا لنک بھیج دیا ہے۔ شکریہ۔"
  rescheduled := fun _n _a _d => "آپ کی درخواست نوٹ کر لی گئی ہے۔ ایک ایجنٹ جلد ہی نئی تاریخ کی تصدیق کے لیے آپ کو واپس کال کرے گا۔ شکریہ۔"

/-- The `"es"` entry of `LANG_MSGS` in src/ap3.py; each template is
the Python format string with placeholders turned into arguments
(n = name, a = amount, d = due_date). -/
def msgs_es : MsgSet where
  reminder := fun n a _d => "Hola " ++ n ++ ". Este es un recordatorio de TVS Credit. Su EMI de " ++ a ++ " rupias vence hoy. Presione 1 para pagar ahora, o 2 para solicitar una reprogramación."
  pre_due_reminder := fun n a d => "Hola " ++ n ++ ". Un recordatorio amistoso de TVS Credit. Su EMI de " ++ a ++ " rupias vence el " ++ d ++ ". Gracias."
  link_sent := fun _n _a _d => "Hemos enviado un enlace de pago a su teléfono. Gracias."
  rescheduled := fun _n _a _d => "Su solicitud ha sido registrada. Un agente le devolverá la llamada en breve para confirmar una nueva fecha. Gracias."

/-- The `"fr"` entry of `LANG_MSGS` in src/ap3.py; each template is
the Python format string with placeholders turned into arguments
(n = name, a = amount, d = due_date). -/
def msgs_fr : MsgSet where
  reminder := fun n a _d => "Bonjour " ++ n ++ ". Ceci est un rappel de TVS Credit. Votre EMI de " ++ a ++ " roupies est due aujourd\x27hui. Appuyez sur 1 pour payer maintenant, ou sur 2 pour demander un rééchelonnement."
  pre_due_reminder := fun n a d => "Bonjour " ++ n ++ ". Un rappel amical de TVS Credit. Votre EMI de " ++ a ++ " roupies est due le " ++ d ++ ". Merci."
  link_sent := fun _n _a _d => "Nous avons envoyé un lien de paiement sur votre téléphone. Merci."
  rescheduled := fun _n _a _d => "Votre demande a été enregistrée. Un agent vous rappellera sous peu pour confirmer une nouvelle date. Merci."

/-- The `"de"` entry of `LANG_MSGS` in src/ap3.py; each template is
the Python format string with placeholders turned into arguments
(n = name, a = amount, d = due_date). -/
def msgs_de : MsgSet where
  reminder := fun n a _d => "Hallo " ++ n ++ ". Dies ist eine Erinnerung von TVS Credit. Ihre EMI von " ++ a ++ " Rupien ist heute fällig. Drücken Sie 1, um jetzt zu zahlen, oder 2, um eine Umschuldung zu beantragen."
  pre_due_reminder := fun n a d => "Hallo " ++ n ++ ". Eine freundliche Erinnerung von TVS Credit. Ihre EMI von " ++ a ++ " Rupien ist am " ++ d ++ " fällig. Danke."
  link_sent := fun _n _a _d => "Wir haben einen Zahlungslink an Ihr Telefon gesendet. Danke."
  rescheduled := fun _n _a _d => "Ihre Anfrage wurde vermerkt. Ein Mitarbeiter wird Sie in Kürze zurückrufen, um ein neues Datum zu bestätigen. Danke."

/-- The `"pt"` entry of `LANG_MSGS` in src/ap3.py; each template is
the Python format string with placeholders turned into arguments
(n = name, a = amount, d = due_date). -/
def msgs_pt : MsgSet where
  reminder := fun n a _d => "Olá " ++ n ++ ". Este é um lembrete da TVS Credit. Sua EMI de " ++ a ++ " rúpias vence hoje. Pressione 1 para pagar agora, ou 2 para solicitar um reagendamento."
  pre_due_reminder := fun n a d => "Olá " ++ n ++ ". Um lembrete amigável da TVS Credit. Sua EMI de " ++ a ++ " rúpias vence em " ++ d ++ ". Obrigado."
  link_sent := fun _n _a _d => "Enviamos um link de pagamento para o seu telefone. Obrigado."
  rescheduled := fun _n _a _d => "Sua solicitação foi registrada. Um agente ligará de volta em breve para confirmar uma nova data. Obrigado."

/-- The `"ru"` entry of `LANG_MSGS` in src/ap3.py; each template is
the Python format string with placeholders turned into arguments
(n = name, a = amount, d = due_date). -/
def msgs_ru : MsgSet where
  reminder := fun n a _d => "Здравствуйте, " ++ n ++ ". Это напоминание от TVS Credit. Ваш платеж EMI в размере " ++ a ++ " рупий необходимо внести сегодня. Нажмите 1, чтобы оплатить сейчас, или 2, чтобы запросить перенос срока."
  pre_due_reminder := fun n a d => "Здравствуйте, " ++ n ++ ". Дружеское напоминание от TVS Credit. Ваш платеж EMI в размере " ++ a ++ " рупий необходимо внести " ++ d ++ ". Спасибо."
  link_sent := fun _n _a _d => "Мы отправили ссылку для оплаты на ваш телефон. Спасибо."
  rescheduled := fun _n _a _d => "Ваш запрос был принят. Агент скоро свяжется с вами для подтверждения новой даты. Спасибо."

/-- The `"zh"` entry of `LANG_MSGS` in src/ap3.py; each template is
the Python format string with placeholders turned into arguments
(n = name, a = amount, d = due_date). -/
def msgs_zh : MsgSet where
  reminder := fun n a _d => "您好 " ++ n ++ "。这是来自 TVS Credit 的提醒。您的 " ++ a ++ " 卢比 EMI 今天到期。请按 1 立即付款，或按 2 请求重新安排。"
  pre_due_reminder := fun n a d => "您好 " ++ n ++ "。来自 TVS Credit 的友好提醒。您的 " ++ a ++ " 卢比 EMI 将于 " ++ d ++ " 到期。谢谢。"
  link_sent := fun _n _a _d => "我们已将付款链接发送到您的手机。谢谢。"
  rescheduled := fun _n _a _d => "您的请求已被记录。代理商将很快给您回电以确认新日期。谢谢。"

/-- The `"ja"` entry of `LANG_MSGS` in src/ap3.py; each template is
the Python format string with placeholders turned into arguments
(n = name, a = amount, d = due_date). -/
def msgs_ja : MsgSet where
  reminder := fun n a _d => "こんにちは、" ++ n ++ "さん。TVS Creditからのお知らせです。" ++ a ++ "ルピーのEMIは本日が期日です。今すぐ支払うには1を、リスケジュールをリクエストするには2を押してください。"
  pre_due_reminder := fun n a d => "こんにちは、" ++ n ++ "さん。TVS Creditからの丁寧なリマインダーです。" ++ a ++ "ルピーのEMIは" ++ d ++ "が期日です。ありがとうございます。"
  link_sent := fun _n _a _d => "お使いの携帯電話に支払いリンクを送信しました。ありがとうございます。"
  rescheduled := fun _n _a _d => "ご要望は記録されました。担当者が後ほど新しい日付を確認するために折り返しお電話いたします。ありがとうございます。"

/-- The `"ar"` entry of `LANG_MSGS` in src/ap3.py; each template is
the Python format string with placeholders turned into arguments
(n = name, a = amount, d = due_date). -/
def msgs_ar : MsgSet where
  reminder := fun n a _d => "مرحباً " ++ n ++ ". هذا تذكير من TVS Credit. قسطك الشهري بقيمة " ++ a ++ " روبية مستحق اليوم. اضغط 1 للدفع الآن، أو 2 لطلب إعادة جدولة."
  pre_due_reminder := fun n a d => "مرحباً " ++ n ++ ". تذكير ودي من TVS Credit. قسطك الشهري بقيمة " ++ a ++ " روبية مستحق في " ++ d ++ ". شكراً لك."
  link_sent := fun _n _a _d => "لقد أرسلنا رابط دفع إلى هاتفك. شكراً لك."
  rescheduled := fun _n _a _d => "لقد تم تسجيل طلبك. سيعاود أحد الوكلاء الاتصال بك قريباً لتأكيد تاريخ جديد. شكراً لك."

/-- The `"id"` entry of `LANG_MSGS` in src/ap3.py; each template is
the Python format string with placeholders turned into arguments
(n = name, a = amount, d = due_date). -/
def msgs_id : MsgSet where
  reminder := fun n a _d => "Halo " ++ n ++ ". Ini adalah pengingat dari TVS Credit. EMI Anda sebesar " ++ a ++ " rupee jatuh tempo hari ini. Tekan 1 untuk membayar sekarang, atau 2 untuk meminta penjadwalan ulang."
  pre_due_reminder := fun n a d => "Halo " ++ n ++ ". Pengingat ramah dari TVS Credit. EMI Anda sebesar " ++ a ++ " rupee jatuh tempo pada " ++ d ++ ". Terima kasih."
  link_sent := fun _n _a _d => "Kami telah mengirimkan tautan pembayaran ke ponsel Anda. Terima kasih."
  rescheduled := fun _n _a _d => "Permintaan Anda telah dicatat. Seorang agen akan segera menelepon Anda kembali untuk mengkonfirmasi tanggal baru. Terima kasih."

/-- The `"it"` entry of `LANG_MSGS` in src/ap3.py; each template is
the Python format string with placeholders turned into arguments
(n = name, a = amount, d = due_date). -/
def msgs_it : MsgSet where
  reminder := fun n a _d => "Ciao " ++ n ++ ". Questo è un promemoria da TVS Credit. La tua rata EMI di " ++ a ++ " rupie scade oggi. Premi 1 per pagare ora, o 2 per richiedere una riprogrammazione."
  pre_due_reminder := fun n a d => "Ciao " ++ n ++ ". Un promemoria amichevole da TVS Credit. La tua rata EMI di " ++ a ++ " rupie scade il " ++ d ++ ". Grazie."
  link_sent := fun _n _a _d => "Abbiamo inviato un link di pagamento al tuo telefono. Grazie."
  rescheduled := fun _n _a _d => "La tua richiesta è stata registrata. Un agente ti richiamerà a breve per confermare una nuova data. Grazie."

/-- The `"tr"` entry of `LANG_MSGS` in src/ap3.py; each template is
the Python format string with placeholders turned into arguments
(n = name, a = amount, d = due_date). -/
def msgs_tr : MsgSet where
  reminder := fun n a _d => "Merhaba " ++ n ++ ". Bu, TVS Credit\x27ten bir hatırlatmadır. " ++ a ++ " rupilik EMI ödemeniz bugün vadesi dolmuştur. Şimdi ödemek için 1\x27e, yeniden planlama talep etmek için 2\x27ye basın."
  pre_due_reminder := fun n a d => "Merhaba " ++ n ++ ". TVS Credit\x27ten dostça bir hatırlatma. " ++ a ++ " rupilik EMI ödemenizin vadesi " ++ d ++ " tarihinde dolmaktadır. Teşekkür ederiz."
  link_sent := fun _n _a _d => "Telefonunuza bir ödeme bağlantısı gönderdik. Teşekkür ederiz."
  rescheduled := fun _n _a _d => "Talebiniz kaydedilmiştir. Bir temsilci yeni bir tarihi onaylamak için kısa süre içinde sizi geri arayacaktır. Teşekkür ederiz."

/-- The `"nl"` entry of `LANG_MSGS` in src/ap3.py; each template is
the Python format string with placeholders turned into arguments
(n = name, a = amount, d = due_date). -/
def msgs_nl : MsgSet where
  reminder := fun n a _d => "Hallo " ++ n ++ ". Dit is een herinnering van TVS Credit. Uw EMI van " ++ a ++ " roepie vervalt vandaag. Druk op 1 om nu te betalen, of 2 om een nieuwe planning aan te vragen."
  pre_due_reminder := fun n a d => "Hallo " ++ n ++ ". Een vriendelijke herinnering van TVS Credit. Uw EMI van " ++ a ++ " roepie vervalt op " ++ d ++ ". Dank u."
  link_sent := fun _n _a _d => "We hebben een betalingslink naar uw telefoon gestuurd. Dank u."
  rescheduled := fun _n _a _d => "Uw verzoek is genoteerd. Een medewerker belt u binnenkort terug om een nieuwe datum te bevestigen. Dank u."

/-- The `"ko"` entry of `LANG_MSGS` in src/ap3.py; each template is
the Python format string with placeholders turned into arguments
(n = name, a = amount, d = due_date). -/
def msgs_ko : MsgSet where
  reminder := fun n a _d => "안녕하세요 " ++ n ++ "님. TVS Credit에서 알려드립니다. " ++ a ++ "루피의 EMI가 오늘 마감입니다. 지금 결제하려면 1번을, 일정 변경을 요청하려면 2번을 누르십시오."
  pre_due_reminder := fun n a d => "안녕하세요 " ++ n ++ "님. TVS Credit의 친절한 알림입니다. " ++ a ++ "루피의 EMI가 " ++ d ++ "에 마감됩니다. 감사합니다."
  link_sent := fun _n _a _d => "결제 링크를 휴대폰으로 보내드렸습니다. 감사합니다."
  rescheduled := fun _n _a _d => "요청이 접수되었습니다. 상담원이 곧 새로운 날짜를 확인하기 위해 다시 연락드릴 것입니다. 감사합니다."

/-- The `"pl"` entry of `LANG_MSGS` in src/ap3.py; each template is
the Python format string with placeholders turned into arguments
(n = name, a = amount, d = due_date). -/
def msgs_pl : MsgSet where
  reminder := fun n a _d => "Witaj " ++ n ++ ". To jest przypomnienie od TVS Credit. Twoja rata EMI w wysokości " ++ a ++ " rupii jest dzisiaj wymagalna. Naciśnij 1, aby zapłacić teraz, lub 2, aby poprosić o zmianę terminu."
  pre_due_reminder := fun n a d => "Witaj " ++ n ++ ". Przyjazne przypomnienie od TVS Credit. Twoja rata EMI w wysokości " ++ a ++ " rupii jest wymagalna " ++ d ++ ". Dziękujemy."
  link_sent := fun _n _a _d => "Wysłaliśmy link do płatności na Twój telefon. Dziękujemy."
  rescheduled := fun _n _a _d => "Twoja prośba została odnotowana. Agent wkrótce oddzwoni, aby potwierdzić nową datę. Dziękujemy."

/-- The `"vi"` entry of `LANG_MSGS` in src/ap3.py; each template is
the Python format string with placeholders turned into arguments
(n = name, a = amount, d = due_date). -/
def msgs_vi : MsgSet where
  reminder := fun n a _d => "Chào " ++ n ++ ". Đây là lời nhắc từ TVS Credit. Khoản EMI " ++ a ++ " rupee của bạn đến hạn hôm nay. Nhấn 1 để thanh toán ngay, hoặc 2 để yêu cầu sắp xếp lại lịch."
  pre_due_reminder := fun n a d => "Chào " ++ n ++ ". Một lời nhắc thân thiện từ TVS Credit. Khoản EMI " ++ a ++ " rupee của bạn đến hạn vào ngày " ++ d ++ ". Cảm ơn bạn."
  link_sent := fun _n _a _d => "Chúng tôi đã gửi một liên kết thanh toán đến điện thoại của bạn. Cảm ơn bạn."
  rescheduled := fun _n _a _d => "Yêu cầu của bạn đã được ghi nhận. Một nhân viên sẽ sớm gọi lại cho bạn để xác nhận ngày mới. Cảm ơn bạn."

/-- The `"fil"` entry of `LANG_MSGS` in src/ap3.py; each template is
the Python format string with placeholders turned into arguments
(n = name, a = amount, d = due_date). -/
def msgs_fil : MsgSet where
  reminder := fun n a _d => "Kumusta " ++ n ++ ". Ito ay isang paalala mula sa TVS Credit. Ang iyong EMI na " ++ a ++ " piso ay dapat bayaran ngayon. Pindutin ang 1 para magbayad ngayon, o 2 para humiling ng reschedule."
  pre_due_reminder := fun n a d => "Kumusta " ++ n ++ ". Isang paalala mula sa TVS Credit. Ang iyong EMI na " ++ a ++ " piso ay dapat bayaran sa " ++ d ++ ". Salamat."
  link_sent := fun _n _a _d => "Nagpadala kami ng link para sa pagbabayad sa iyong telepono. Salamat."
  rescheduled := fun _n _a _d => "Nai-record na ang iyong kahilingan. Tatawagan ka ng isang ahente sa lalong madaling panahon para kumpirmahin ang bagong petsa. Salamat."

/-- The `LANG_MSGS` table of src/ap3.py, in source order. -/
def LANG_MSGS : List (String × MsgSet) :=
  [("en", msgs_en), ("hi", msgs_hi), ("bn", msgs_bn), ("ta", msgs_ta), ("te", msgs_te), ("mr", msgs_mr), ("gu", msgs_gu), ("kn", msgs_kn), ("ml", msgs_ml), ("pa", msgs_pa), ("or", msgs_or), ("ur", msgs_ur), ("es", msgs_es), ("fr", msgs_fr), ("de", msgs_de), ("pt", msgs_pt), ("ru", msgs_ru), ("zh", msgs_zh), ("ja", msgs_ja), ("ar", msgs_ar), ("id", msgs_id), ("it", msgs_it), ("tr", msgs_tr), ("nl", msgs_nl), ("ko", msgs_ko), ("pl", msgs_pl), ("vi", msgs_vi), ("fil", msgs_fil)]

/-- Models `LANG_MSGS.get(lang, LANG_MSGS["en"])`: language lookup with silent
fallback to the English entry. -/
def lookupLang (lang : String) : MsgSet :=
  match LANG_MSGS.find? (fun p => p.1 == lang) with
  | some p => p.2
  | none => msgs_en

/-- Function `get_msg(lang, key, **kwargs)` of src/ap3.py:
`LANG_MSGS.get(lang, LANG_MSGS["en"])[key].format(**kwargs)` — an unmapped
language code silently falls back to the English entry. -/
def get_msg (lang : String) (key : MsgKey) (n a d : String) : String :=
  (lookupLang lang).render key n a d

/-! ### Core functions of src/ap3.py -/

/-- Result of `place_call`: either the `{"error": "Loan not found"}` dict
or, in the mock branch, `{"status": "mock_call_logged", "text": text}`. -/
inductive CallResult where
  | notFound
  | mock (text : String)
deriving DecidableEq, Repr

/-- Function `place_call(loan_id, message_key)` of src/ap3.py (mock branch, no
Twilio credentials): join loan with its customer, return the error dict if
the join is empty; otherwise render the message via `get_msg`, append a
`call_initiated` event and then a `mock_call` event carrying the rendered
text, and return the text.  `message_key` defaults to `"reminder"` at the
call sites. -/
def place_call (db : DB) (loan_id : Nat) (message_key : MsgKey) :
    DB × CallResult :=
  match db.joinLoan loan_id with
  | none => (db, .notFound)
  | some (l, c) =>
    let text := get_msg c.language message_key c.name (toString l.emi_amount)
      (formatLongDate l.due_date)
    let db1 := (db.appendLog loan_id "call_initiated" ("to " ++ c.phone)
      ).appendLog loan_id "mock_call" text
    (db1, .mock text)

/-- Result of `send_payment_link`: the error dict or
`{"status": "payment_link_sent", "link": link}`. -/
inductive LinkResult where
  | notFound
  | sent (link : String)
deriving DecidableEq, Repr

/-- Function `send_payment_link(loan_id)` of src/ap3.py (mock branch): join loan
with customer, build the deterministic payment URL, append one
`payment_link_sent` event with the mock SMS detail, return the link. -/
def send_payment_link (db : DB) (loan_id : Nat) : DB × LinkResult :=
  match db.joinLoan loan_id with
  | none => (db, .notFound)
  | some (l, c) =>
    let payment_link := "https://example.com/pay?loan=" ++ toString loan_id
      ++ "&amount=" ++ toString l.emi_amount
    let detail := "mock_sms_sent_to_" ++ c.phone ++ "::" ++ payment_link
    (db.appendLog loan_id "payment_link_sent" detail, .sent payment_link)

/-- Function `mark_paid(loan_id)` of src/ap3.py: update loans to status
`paid` where the id matches (no existence check), then append a
`marked_paid` event with detail `"Webhook/Manual"`; always returns an ok
dict (modelled as the string `"ok"`). -/
def mark_paid (db : DB) (loan_id : Nat) : DB × String :=
  let db1 : DB :=
    { db with loans := setLoan db.loans loan_id (fun l => { l with status := .paid }) }
  (db1.appendLog loan_id "marked_paid" "Webhook/Manual", "ok")

/-- Result of `reschedule_loan`: the error dict or
`{"status": "rescheduled", "new_date": d}`. -/
inductive RescheduleResult where
  | notFound
  | ok (new_date : Int)
deriving DecidableEq, Repr

/-- Function `reschedule_loan(loan_id, days_to_add=7)` of src/ap3.py: read
the current due date of the loan (error dict if the loan is missing), set
status `rescheduled` and `due_date = current + days_to_add` — with no
check of the current status — and append a `rescheduled` event whose
detail records the new ISO date.  The Python default `days_to_add=7` is
made explicit at the call sites here. -/
def reschedule_loan (db : DB) (loan_id : Nat) (days_to_add : Int) :
    DB × RescheduleResult :=
  match db.findLoan loan_id with
  | none => (db, .notFound)
  | some l =>
    let new_due_date := l.due_date + days_to_add
    let upd : Loan → Loan := fun l0 =>
      { l0 with status := .rescheduled, due_date := new_due_date }
    let db1 : DB := { db with loans := setLoan db.loans loan_id upd }
    (db1.appendLog loan_id "rescheduled"
      ("New due date: " ++ isoDate new_due_date), .ok new_due_date)

/-! ### Selection queries and bulk loops (UI layer of src/ap3.py) -/

/-- Query `SELECT id FROM loans WHERE due_date <= ?`, also requiring
status `due`, with
`?` = today ("Call Overdue Customers", src/ap3.py line 442; identical in
src/ap2.py line 227).  Row order is the rowid scan order, i.e. the order
of the store. -/
def selectOverdue (db : DB) (asOf : Int) : List Nat :=
  (db.loans.filter (fun p => p.2.due_date ≤ asOf && p.2.status == .due)).map
    (fun p => p.1)

/-- Query `SELECT id FROM loans WHERE due_date = ?`, also requiring
status `due`, with
`?` = today + 3 days ("Call Pre-Due Customers", src/ap3.py line 428):
an exact-date match. -/
def selectPreDue (db : DB) (target : Int) : List Nat :=
  (db.loans.filter (fun p => p.2.due_date == target && p.2.status == .due)).map
    (fun p => p.1)

/-- The bulk dispatch loop (src/ap3.py lines 441-452 and 426-438): call
`place_call` on each selected loan id, in the order the query returned
them, one at a time; a per-loan "Loan not found" result does not stop the
loop (the source ignores each per-item result and only reports the total).
The ⟨succeeded count, failed loan ids⟩ report is the report value of the
spec operation `dispatchBulk`, computed here from the per-item results the
loop produces. -/
def bulkStep (key : MsgKey) (acc : DB × Nat × List Nat) (id : Nat) :
    DB × Nat × List Nat :=
  let r := place_call acc.1 id key
  match r.2 with
  | .notFound => (r.1, acc.2.1, acc.2.2 ++ [id])
  | .mock _ => (r.1, acc.2.1 + 1, acc.2.2)

def dispatchBulk (db : DB) (loanIds : List Nat) (key : MsgKey) :
    DB × (Nat × List Nat) :=
  loanIds.foldl (bulkStep key) (db, 0, [])

/-- "Call Overdue Customers": overdue policy — select with `today`, then
dispatch with the default `"reminder"` template. -/
def callOverdueCustomers (db : DB) (today : Int) : DB × (Nat × List Nat) :=
  dispatchBulk db (selectOverdue db today) .reminder

/-- "Call Pre-Due Customers": pre-due policy — select with `today + 3`
days exactly, then dispatch with the `"pre_due_reminder"` template. -/
def callPreDueCustomers (db : DB) (today : Int) : DB × (Nat × List Nat) :=
  dispatchBulk db (selectPreDue db (today + 3)) .pre_due_reminder

/-! ### Concrete stores for tests and counterexamples -/

/-- The empty store (freshly initialised database). -/
def dbEmpty : DB := ⟨[], [], []⟩

def custA : Customer := ⟨"A", "+911111111111", "en"⟩

def loanA : Loan := ⟨1, 4000, mkDate 2025 8 12, .due⟩

/-- The end-to-end scenario store: customer "A" (language `en`), one loan
of amount 4000 due on `today0`. -/
def dbA : DB := ⟨[(1, custA)], [(1, loanA)], []⟩

/-- The "today" used by the concrete scenarios. -/
def today0 : Int := mkDate 2025 8 12

def loanPaid : Loan := ⟨1, 2000, mkDate 2025 1 1, .paid⟩

/-- A store holding a loan that is already `paid`. -/
def dbPaid : DB := ⟨[(1, ⟨"B", "+912222222222", "en"⟩)], [(1, loanPaid)], []⟩

def loanJan : Loan := ⟨1, 3000, mkDate 2025 1 1, .due⟩

/-- A store holding a `due` loan due 2025-01-01. -/
def dbJan : DB := ⟨[(1, ⟨"C", "+913333333333", "en"⟩)], [(1, loanJan)], []⟩

def custXX : Customer := ⟨"Dana", "+914444444444", "xx"⟩

def loanXX : Loan := ⟨1, 4000, mkDate 2025 8 12, .due⟩

/-- A store whose customer has the unmapped language code `"xx"`. -/
def dbXX : DB := ⟨[(1, custXX)], [(1, loanXX)], []⟩

/-- A mixed store: w.r.t. `today0` (2025-08-12), loans 1 and 2 are `due`
and overdue, loan 3 is `paid`, loan 4 is `due` exactly 3 days ahead, and
loan 5 is `rescheduled`. -/
def dbMix : DB :=
  ⟨[(1, custA)],
   [(1, ⟨1, 1000, mkDate 2025 8 10, .due⟩),
    (2, ⟨1, 2000, mkDate 2025 8 12, .due⟩),
    (3, ⟨1, 3000, mkDate 2025 8 11, .paid⟩),
    (4, ⟨1, 4000, mkDate 2025 8 15, .due⟩),
    (5, ⟨1, 5000, mkDate 2025 8 15, .rescheduled⟩)],
   []⟩

/-! ### Helper lemmas about the store primitives -/

lemma lookupId_setLoan_self (xs : List (Nat × Loan)) (id : Nat)
    (f : Loan → Loan) :
    lookupId (setLoan xs id f) id = (lookupId xs id).map f := by
  induction xs with
  | nil => rfl
  | cons p rest ih =>
    by_cases h : p.1 = id
    · simp [setLoan, lookupId, h]
    · simp [setLoan, lookupId, h] at ih ⊢
      simpa [setLoan] using ih

lemma lookupId_setLoan_other (xs : List (Nat × Loan)) (id j : Nat)
    (f : Loan → Loan) (hne : j ≠ id) :
    lookupId (setLoan xs id f) j = lookupId xs j := by
  induction xs with
  | nil => rfl
  | cons p rest ih =>
    have hmap : setLoan (p :: rest) id f
        = (if p.1 = id then (p.1, f p.2) else p) :: setLoan rest id f := rfl
    rw [hmap]
    by_cases h : p.1 = id
    · have hpj : ¬ p.1 = j := fun hc => hne (hc ▸ h)
      rw [if_pos h]
      show (if p.1 = j then some (f p.2) else lookupId (setLoan rest id f) j)
          = lookupId (p :: rest) j
      simp only [lookupId]
      rw [if_neg hpj, if_neg hpj]
      exact ih
    · rw [if_neg h]
      simp only [lookupId]
      by_cases hj : p.1 = j
      · rw [if_pos hj, if_pos hj]
      · rw [if_neg hj, if_neg hj]
        exact ih

lemma setLoan_of_lookup_none (xs : List (Nat × Loan)) (id : Nat)
    (f : Loan → Loan) (h : lookupId xs id = none) : setLoan xs id f = xs := by
  induction xs with
  | nil => rfl
  | cons p rest ih =>
    by_cases hp : p.1 = id
    · simp [lookupId, hp] at h
    · simp [lookupId, hp] at h
      simp [setLoan, hp] at ih ⊢
      exact ih h

lemma setLoan_setLoan (xs : List (Nat × Loan)) (id : Nat)
    (f g : Loan → Loan) :
    setLoan (setLoan xs id f) id g = setLoan xs id (fun l => g (f l)) := by
  induction xs with
  | nil => rfl
  | cons p rest ih =>
    by_cases h : p.1 = id
    · simp [setLoan, h] at ih ⊢
      exact ih
    · simp [setLoan, h] at ih ⊢
      exact ih

lemma str_data_append (a b : String) : (a ++ b).data = a.data ++ b.data := by
  cases a
  cases b
  rfl

lemma str_append_left_ne_empty (a b : String) (ha : a ≠ "") :
    a ++ b ≠ "" := by
  intro hc
  apply ha
  have hd := congrArg String.data hc
  rw [str_data_append] at hd
  have hnil : a.data = [] := (List.append_eq_nil.mp hd).1
  cases a
  cases hnil
  rfl

lemma mark_paid_findLoan (db : DB) (id : Nat) :
    (mark_paid db id).1.findLoan id
      = (db.findLoan id).map (fun l => { l with status := .paid }) :=
  lookupId_setLoan_self db.loans id (fun l => { l with status := .paid })

lemma mark_paid_findLoan_other (db : DB) (id j : Nat) (hne : j ≠ id) :
    (mark_paid db id).1.findLoan j = db.findLoan j :=
  lookupId_setLoan_other db.loans id j (fun l => { l with status := .paid }) hne

lemma reschedule_findLoan (db : DB) (id : Nat) (l : Loan) (days : Int)
    (h : db.findLoan id = some l) :
    (reschedule_loan db id days).1.findLoan id
      = some { l with status := .rescheduled, due_date := l.due_date + days } := by
  simp only [reschedule_loan, h]
  have h2 := lookupId_setLoan_self db.loans id
    (fun l0 => { l0 with status := .rescheduled, due_date := l.due_date + days })
  rw [show lookupId db.loans id = some l from h] at h2
  exact h2

lemma reschedule_findLoan_other (db : DB) (id : Nat) (l : Loan) (days : Int)
    (j : Nat) (h : db.findLoan id = some l) (hne : j ≠ id) :
    (reschedule_loan db id days).1.findLoan j = db.findLoan j := by
  simp only [reschedule_loan, h]
  exact lookupId_setLoan_other db.loans id j
    (fun l0 => { l0 with status := .rescheduled,
                         due_date := l.due_date + days }) hne

/-- Folding the bulk step from an arbitrary accumulator only shifts the
report: the store evolves identically, the success count adds to the
initial count, and the failed ids append to the initial failures. -/
lemma bulk_shift (key : MsgKey) (ids : List Nat) :
    ∀ (db : DB) (cnt : Nat) (fs : List Nat),
      ids.foldl (bulkStep key) (db, cnt, fs)
        = ((dispatchBulk db ids key).1,
           cnt + (dispatchBulk db ids key).2.1,
           fs ++ (dispatchBulk db ids key).2.2) := by
  induction ids with
  | nil =>
    intro db cnt fs
    simp [dispatchBulk]
  | cons id rest ih =>
    intro db cnt fs
    have hd : dispatchBulk db (id :: rest) key
        = rest.foldl (bulkStep key) (bulkStep key (db, 0, []) id) := rfl
    have hl : (id :: rest).foldl (bulkStep key) (db, cnt, fs)
        = rest.foldl (bulkStep key) (bulkStep key (db, cnt, fs) id) := rfl
    rw [hl, hd]
    cases hr : (place_call db id key).2 with
    | notFound =>
      rw [show bulkStep key (db, cnt, fs) id
          = ((place_call db id key).1, cnt, fs ++ [id]) from by
            simp [bulkStep, hr]]
      rw [show bulkStep key (db, 0, []) id
          = ((place_call db id key).1, 0, [id]) from by simp [bulkStep, hr]]
      rw [ih (place_call db id key).1 cnt (fs ++ [id]),
          ih (place_call db id key).1 0 [id]]
      simp [List.append_assoc]
    | mock t =>
      rw [show bulkStep key (db, cnt, fs) id
          = ((place_call db id key).1, cnt + 1, fs) from by
            simp [bulkStep, hr]]
      rw [show bulkStep key (db, 0, []) id
          = ((place_call db id key).1, 1, []) from by simp [bulkStep, hr]]
      rw [ih (place_call db id key).1 (cnt + 1) fs,
          ih (place_call db id key).1 1 []]
      simp [Nat.add_assoc]

/-- The bulk loop is sequential: dispatching `id :: ids` dispatches `id`
on the current store first, then the tail on the resulting store. -/
lemma dispatchBulk_cons (db : DB) (id : Nat) (ids : List Nat)
    (key : MsgKey) :
    dispatchBulk db (id :: ids) key
      = (match (place_call db id key).2 with
         | .notFound =>
           ((dispatchBulk (place_call db id key).1 ids key).1,
            (dispatchBulk (place_call db id key).1 ids key).2.1,
            id :: (dispatchBulk (place_call db id key).1 ids key).2.2)
         | .mock _ =>
           ((dispatchBulk (place_call db id key).1 ids key).1,
            1 + (dispatchBulk (place_call db id key).1 ids key).2.1,
            (dispatchBulk (place_call db id key).1 ids key).2.2)) := by
  cases hr : (place_call db id key).2 with
  | notFound =>
    simp only [hr]
    rw [show dispatchBulk db (id :: ids) key
        = ids.foldl (bulkStep key) (bulkStep key (db, 0, []) id) from rfl]
    rw [show bulkStep key (db, 0, []) id
        = ((place_call db id key).1, 0, [id]) from by simp [bulkStep, hr]]
    rw [bulk_shift key ids (place_call db id key).1 0 [id]]
    simp
  | mock t =>
    simp only [hr]
    rw [show dispatchBulk db (id :: ids) key
        = ids.foldl (bulkStep key) (bulkStep key (db, 0, []) id) from rfl]
    rw [show bulkStep key (db, 0, []) id
        = ((place_call db id key).1, 1, []) from by simp [bulkStep, hr]]
    rw [bulk_shift key ids (place_call db id key).1 1 []]
    simp

/-! ### Claim theorems -/

/-- Claim C1, as stated, is false: `reschedule_loan` checks only that the
loan exists, not its status, so rescheduling a loan whose status is
`paid` moves it from `paid` to `rescheduled` — `paid` is not terminal. -/
theorem c1_paid_not_terminal_counterexample :
    (dbPaid.findLoan 1).map Loan.status = some .paid ∧
    (((reschedule_loan dbPaid 1 7).1).findLoan 1).map Loan.status
      = some .rescheduled := by
  decide

/-- Claim C1 (amended): `mark_paid` always drives the target loan to
`paid` (so re-marking a paid loan keeps it `paid`), `reschedule_loan`
always drives it to `rescheduled` — including from `paid`, which it moves
out of `paid` — `place_call` and `send_payment_link` never change the
loans table, and neither lifecycle operation touches any other loan. -/
theorem c1_status_transitions (db : DB) (id : Nat) (l : Loan) (days : Int)
    (key : MsgKey) (h : db.findLoan id = some l) :
    ((mark_paid db id).1.findLoan id).map Loan.status = some .paid ∧
    (((reschedule_loan db id days).1).findLoan id).map Loan.status
      = some .rescheduled ∧
    (place_call db id key).1.loans = db.loans ∧
    (send_payment_link db id).1.loans = db.loans ∧
    ∀ j, ¬ j = id →
      (mark_paid db id).1.findLoan j = db.findLoan j ∧
      ((reschedule_loan db id days).1).findLoan j = db.findLoan j := by
  refine ⟨?_, ?_, ?_, ?_, ?_⟩
  · rw [mark_paid_findLoan, h]
    rfl
  · rw [reschedule_findLoan db id l days h]
    rfl
  · cases hj : db.joinLoan id with
    | none => simp [place_call, hj]
    | some lc =>
      obtain ⟨l0, c0⟩ := lc
      simp [place_call, hj, DB.appendLog]
  · cases hj : db.joinLoan id with
    | none => simp [send_payment_link, hj]
    | some lc =>
      obtain ⟨l0, c0⟩ := lc
      simp [send_payment_link, hj, DB.appendLog]
  · intro j hne
    exact ⟨mark_paid_findLoan_other db id j hne,
      reschedule_findLoan_other db id l days j h hne⟩

/-- Witness for the amended C1, at the store holding a paid loan. -/
theorem c1_status_transitions_witness :
    ((mark_paid dbPaid 1).1.findLoan 1).map Loan.status = some .paid :=
  (c1_status_transitions dbPaid 1 loanPaid 7 .reminder rfl).1

/-- Claim C5: `reschedule_loan` on an existing loan sets the new due date
to the current due date plus `days_to_add` (7 at the UI call site), sets
status to `rescheduled`, and appends exactly one `rescheduled` event
recording the new ISO date in its detail; a loan due 2025-01-01 moves to
2025-01-08 and, rescheduled again, to 2025-01-15; a missing loan id
yields the `Loan not found` error and no change. -/
theorem c5_reschedule_spec :
    (∀ (db : DB) (id : Nat) (l : Loan) (days : Int),
      db.findLoan id = some l →
      (reschedule_loan db id days).2 = .ok (l.due_date + days) ∧
      (reschedule_loan db id days).1.findLoan id
        = some { l with status := .rescheduled,
                        due_date := l.due_date + days } ∧
      (reschedule_loan db id days).1.call_logs = db.call_logs
        ++ [⟨id, "rescheduled",
             "New due date: " ++ isoDate (l.due_date + days)⟩]) ∧
    (∀ (db : DB) (id : Nat), db.findLoan id = none →
      reschedule_loan db id 7 = (db, .notFound)) ∧
    (reschedule_loan dbJan 1 7).2 = .ok (mkDate 2025 1 8) ∧
    ((reschedule_loan dbJan 1 7).1.findLoan 1).map Loan.due_date
      = some (mkDate 2025 1 8) ∧
    ((reschedule_loan dbJan 1 7).1.findLoan 1).map Loan.status
      = some .rescheduled ∧
    (reschedule_loan (reschedule_loan dbJan 1 7).1 1 7).2
      = .ok (mkDate 2025 1 15) := by
  refine ⟨?_, ?_, by decide, by decide, by decide, by decide⟩
  · intro db id l days h
    exact ⟨by simp [reschedule_loan, h], reschedule_findLoan db id l days h,
      by simp [reschedule_loan, h, DB.appendLog]⟩
  · intro db id h
    simp [reschedule_loan, h]

/-- Witness for C5 at the concrete store with a loan due 2025-01-01. -/
theorem c5_reschedule_spec_witness :
    (reschedule_loan dbJan 1 7).2 = .ok (loanJan.due_date + 7) :=
  (c5_reschedule_spec.1 dbJan 1 loanJan 7 rfl).1

/-- Claim C6: `mark_paid` is idempotent — calling it twice on the same
loan id never errors (both calls return `ok`), leaves the loans table
exactly as after one call with the status of the loan `paid`, and appends
exactly two `marked_paid` events. -/
theorem c6_mark_paid_idempotent (db : DB) (id : Nat) :
    (mark_paid db id).2 = "ok" ∧
    (mark_paid (mark_paid db id).1 id).2 = "ok" ∧
    (mark_paid (mark_paid db id).1 id).1.loans = (mark_paid db id).1.loans ∧
    (∀ l, db.findLoan id = some l →
      (mark_paid (mark_paid db id).1 id).1.findLoan id
        = some { l with status := .paid }) ∧
    (mark_paid (mark_paid db id).1 id).1.call_logs
      = db.call_logs ++ [⟨id, "marked_paid", "Webhook/Manual"⟩,
          ⟨id, "marked_paid", "Webhook/Manual"⟩] := by
  refine ⟨rfl, rfl, ?_, ?_, ?_⟩
  · exact setLoan_setLoan db.loans id (fun l => { l with status := .paid })
      (fun l => { l with status := .paid })
  · intro l h
    rw [mark_paid_findLoan (mark_paid db id).1 id, mark_paid_findLoan db id, h]
    rfl
  · exact (List.append_assoc db.call_logs
      [⟨id, "marked_paid", "Webhook/Manual"⟩]
      [⟨id, "marked_paid", "Webhook/Manual"⟩]).symm ▸ rfl

/-- Witness for C6 at the end-to-end store. -/
theorem c6_mark_paid_idempotent_witness :
    (mark_paid (mark_paid dbA 1).1 1).1.findLoan 1
      = some { loanA with status := .paid } :=
  (c6_mark_paid_idempotent dbA 1).2.2.2.1 loanA rfl

/-- Claim C7: `place_call` on a loan id with no loan row returns the
`Loan not found` result and leaves the whole store — loans, customers and
event log — unchanged, so zero events are appended. -/
theorem c7_place_call_missing_loan (db : DB) (id : Nat) (key : MsgKey)
    (h : db.findLoan id = none) :
    place_call db id key = (db, .notFound) := by
  simp [place_call, DB.joinLoan, h]

/-- Witness for C7 at the empty store. -/
theorem c7_place_call_missing_loan_witness :
    place_call dbEmpty 1 .reminder = (dbEmpty, .notFound) :=
  c7_place_call_missing_loan dbEmpty 1 .reminder rfl

/-- Claim C8: `place_call` and `send_payment_link` never modify the loans
or customers tables — they only read state and append call-log events. -/
theorem c8_dispatch_never_mutates (db : DB) (id : Nat) (key : MsgKey) :
    (place_call db id key).1.loans = db.loans ∧
    (place_call db id key).1.customers = db.customers ∧
    (send_payment_link db id).1.loans = db.loans ∧
    (send_payment_link db id).1.customers = db.customers := by
  refine ⟨?_, ?_, ?_, ?_⟩ <;>
  · first
    | (cases hj : db.joinLoan id with
       | none => simp [place_call, send_payment_link, hj]
       | some lc =>
         obtain ⟨l0, c0⟩ := lc
         simp [place_call, send_payment_link, hj, DB.appendLog])

/-- Claim C10: `mark_paid` performs no existence check — on a loan id
with no loan row it still returns `ok`, changes no loan row, and appends
one `marked_paid` event whose `loan_id` references no loan. -/
theorem c10_mark_paid_no_existence_check (db : DB) (id : Nat)
    (h : db.findLoan id = none) :
    (mark_paid db id).2 = "ok" ∧
    (mark_paid db id).1.loans = db.loans ∧
    (mark_paid db id).1.call_logs
      = db.call_logs ++ [⟨id, "marked_paid", "Webhook/Manual"⟩] ∧
    (mark_paid db id).1.findLoan id = none := by
  have hset := setLoan_of_lookup_none db.loans id
    (fun l => { l with status := .paid }) h
  refine ⟨rfl, hset, rfl, ?_⟩
  rw [mark_paid_findLoan, h]
  rfl

/-- Witness for C10 at the end-to-end store, with the absent id 99. -/
theorem c10_mark_paid_no_existence_check_witness :
    (mark_paid dbA 99).1.call_logs
      = dbA.call_logs ++ [⟨99, "marked_paid", "Webhook/Manual"⟩] :=
  (c10_mark_paid_no_existence_check dbA 99 rfl).2.2.1

/-- Claim C3: on a store whose loan ids are strictly increasing (the
AUTOINCREMENT primary key guarantees this; the scan returns rowid order),
`selectOverdue asOf` returns exactly the ids of loans with status `due`
and due date ≤ asOf — no `paid` or `rescheduled` loan — and the returned
sequence is strictly ascending in id. -/
theorem c3_selectOverdue_exact (db : DB) (asOf : Int)
    (hs : (db.loans.map Prod.fst).Pairwise (· < ·)) :
    (∀ id, id ∈ selectOverdue db asOf ↔
      ∃ l, (id, l) ∈ db.loans ∧ l.status = .due ∧ l.due_date ≤ asOf) ∧
    (selectOverdue db asOf).Pairwise (· < ·) := by
  constructor
  · intro id
    constructor
    · intro hmem
      simp only [selectOverdue, List.mem_map, List.mem_filter] at hmem
      obtain ⟨p, ⟨hp, hq⟩, hid⟩ := hmem
      rw [Bool.and_eq_true, decide_eq_true_eq, beq_iff_eq] at hq
      exact ⟨p.2, by rw [← hid]; exact hp, hq.2, hq.1⟩
    · rintro ⟨l, hl, hstat, hdate⟩
      simp only [selectOverdue, List.mem_map, List.mem_filter]
      refine ⟨(id, l), ⟨hl, ?_⟩, rfl⟩
      rw [Bool.and_eq_true, decide_eq_true_eq, beq_iff_eq]
      exact ⟨hdate, hstat⟩
  · have hsub : List.Sublist (selectOverdue db asOf) (db.loans.map Prod.fst) :=
      (List.filter_sublist db.loans).map Prod.fst
    exact hs.sublist hsub

/-- Witness for C3 at the mixed store: only loans 1 and 2 are due with
due date ≤ 2025-08-12, in ascending id order. -/
theorem c3_selectOverdue_exact_witness :
    (selectOverdue dbMix today0).Pairwise (· < ·) :=
  (c3_selectOverdue_exact dbMix today0 (by decide)).2

/-- Claim C4: `selectPreDue`, instantiated at `today + 3` as in the
"Call Pre-Due Customers" action, returns only loans whose status is
`due` and whose due date equals `today + 3` exactly — an exact-date
match, not a ≤ range. -/
theorem c4_selectPreDue_exact_match (db : DB) (today : Int) (id : Nat)
    (h : id ∈ selectPreDue db (today + 3)) :
    ∃ l, (id, l) ∈ db.loans ∧ l.status = .due ∧ l.due_date = today + 3 := by
  simp only [selectPreDue, List.mem_map, List.mem_filter] at h
  obtain ⟨p, ⟨hp, hq⟩, hid⟩ := h
  rw [Bool.and_eq_true, beq_iff_eq, beq_iff_eq] at hq
  exact ⟨p.2, by rw [← hid]; exact hp, hq.2, hq.1⟩

/-- Witness for C4 at the mixed store: loan 4 is selected for
`today0 + 3` and is indeed due exactly on that date. -/
theorem c4_selectPreDue_exact_match_witness :
    ∃ l, (4, l) ∈ dbMix.loans ∧ l.status = .due ∧ l.due_date = today0 + 3 :=
  c4_selectPreDue_exact_match dbMix today0 4 (by decide)

/-- Claim C9: for a customer whose language code has no `LANG_MSGS`
entry, `get_msg` falls back to the English entry unconditionally and
silently (for every key), and `place_call` with the `reminder` key
renders the English template: a non-empty text containing the name of the
customer and the loan amount. -/
theorem c9_english_template_fallback (db : DB) (id : Nat) (l : Loan)
    (c : Customer) (hj : db.joinLoan id = some (l, c))
    (hlang : c.language ∉ LANG_MSGS.map Prod.fst) :
    (∀ key n a d, get_msg c.language key n a d = msgs_en.render key n a d) ∧
    ∃ text, (place_call db id .reminder).2 = .mock text ∧
      text = msgs_en.reminder c.name (toString l.emi_amount)
        (formatLongDate l.due_date) ∧
      text ≠ "" ∧
      (∃ s u, s ++ c.name.data ++ u = text.data) ∧
      (∃ s u, s ++ (toString l.emi_amount).data ++ u = text.data) := by
  have hfind : LANG_MSGS.find? (fun p => p.1 == c.language) = none := by
    rw [List.find?_eq_none]
    intro x hx hbeq
    rw [beq_iff_eq] at hbeq
    exact hlang (hbeq ▸ List.mem_map_of_mem Prod.fst hx)
  have hfall : ∀ key n a d,
      get_msg c.language key n a d = msgs_en.render key n a d := by
    intro key n a d
    simp [get_msg, lookupLang, hfind]
  refine ⟨hfall, msgs_en.reminder c.name (toString l.emi_amount)
    (formatLongDate l.due_date), ?_, rfl, ?_, ?_, ?_⟩
  · simp only [place_call, hj]
    rw [hfall]
    rfl
  · exact str_append_left_ne_empty _ _ (str_append_left_ne_empty _ _
      (str_append_left_ne_empty _ _ (str_append_left_ne_empty _ _
        (by decide))))
  · refine ⟨"Hello ".data,
      (". This is a reminder from TVS Credit. Your EMI of Rs "
        ++ toString l.emi_amount
        ++ " is due today. Press 1 to pay now, or press 2 to request a reschedule.").data,
      ?_⟩
    simp [msgs_en, str_data_append, List.append_assoc]
  · refine ⟨("Hello " ++ c.name
      ++ ". This is a reminder from TVS Credit. Your EMI of Rs ").data,
      " is due today. Press 1 to pay now, or press 2 to request a reschedule.".data,
      ?_⟩
    simp [msgs_en, str_data_append, List.append_assoc]

/-- Witness for C9 at the store whose customer has language `"xx"`. -/
theorem c9_english_template_fallback_witness :
    ∃ text, (place_call dbXX 1 .reminder).2 = .mock text ∧
      text = msgs_en.reminder custXX.name (toString loanXX.emi_amount)
        (formatLongDate loanXX.due_date) ∧
      text ≠ "" ∧
      (∃ s u, s ++ custXX.name.data ++ u = text.data) ∧
      (∃ s u, s ++ (toString loanXX.emi_amount).data ++ u = text.data) :=
  (c9_english_template_fallback dbXX 1 loanXX custXX rfl (by decide)).2

/-- Claim C2: the bulk loop visits the supplied loan ids strictly in
order, one at a time (the head id is dispatched against the current
store before the tail is processed on the resulting store); a per-loan
`Loan not found` dispatch failure is collected rather than aborting the
batch, so succeeded + failed always accounts for every supplied id; and
on the end-to-end scenario store (customer "A", language `en`, one loan
of 4000 due today) the overdue bulk call reports 1 succeeded and 0
failed, appends exactly one `call_initiated` and one `mock_call` event,
and leaves the status of the loan `due`. -/
theorem c2_bulk_dispatch_in_order_no_abort :
    (∀ (db : DB) (ids : List Nat) (key : MsgKey),
      (dispatchBulk db ids key).2.1 + (dispatchBulk db ids key).2.2.length
        = ids.length) ∧
    (∀ (db : DB) (id : Nat) (ids : List Nat) (key : MsgKey),
      dispatchBulk db (id :: ids) key
        = (match (place_call db id key).2 with
           | .notFound =>
             ((dispatchBulk (place_call db id key).1 ids key).1,
              (dispatchBulk (place_call db id key).1 ids key).2.1,
              id :: (dispatchBulk (place_call db id key).1 ids key).2.2)
           | .mock _ =>
             ((dispatchBulk (place_call db id key).1 ids key).1,
              1 + (dispatchBulk (place_call db id key).1 ids key).2.1,
              (dispatchBulk (place_call db id key).1 ids key).2.2))) ∧
    (callOverdueCustomers dbA today0).2 = (1, []) ∧
    (callOverdueCustomers dbA today0).1.findLoan 1 = some loanA ∧
    (callOverdueCustomers dbA today0).1.call_logs.map LogEntry.event
      = ["call_initiated", "mock_call"] := by
  refine ⟨?_, dispatchBulk_cons, by decide, by decide, by decide⟩
  intro db ids key
  induction ids generalizing db with
  | nil => rfl
  | cons id rest ih =>
    rw [dispatchBulk_cons]
    cases hr : (place_call db id key).2 with
    | notFound =>
      simp only [hr, List.length_cons]
      have := ih (place_call db id key).1
      omega
    | mock t =>
      simp only [hr, List.length_cons]
      have := ih (place_call db id key).1
      omega

end EMIVoicebot
